import Mathlib

/-!
Verification of the looter git-mirror daemon (`src/main.go`) against its
natural-language specification.  The Go program is shallowly embedded:

* `MirrorState` is a Go `int` (`MirrorFresh = 1`, `MirrorReady = 2`), modelled
  as `Nat` so that invalid values (e.g. the zero value `0`) are representable,
  exactly as in Go.
* `time.Time` and `time.Duration` values are modelled as `Nat` nanoseconds.
* The Go map `map[string]Mirror` is modelled as an association list together
  with the Go map primitives: lookup returning the zero value for an absent
  key, and in-place insert.
* JSON encoding/decoding (`encoding/json`) is modelled at the JSON-value
  level: an inductive `Json` type, structure-directed encoders that mirror
  the struct tags of `main.go`, and decoders that start from the target value
  (`NewState` in `NewMirrorer`) and overwrite only the fields present,
  exactly as `json.Decoder.Decode` does.
* The scheduler (`Mirrorer.Run`) is split into its three phases: the catch-up
  pass, the arm phase, and one iteration of the event loop, each embedded as
  a pure function whose extra inputs (clone/update success, the current
  time) stand for the external world.
-/

/-! ## MirrorState (`main.go` lines 17-57) -/

def MirrorFresh : Nat := 1

def MirrorReady : Nat := 2

/-- `MirrorState.String` from the source: `Fresh`, `Ready`, or `Unknown`. -/
def mirrorStateString (ms : Nat) : String :=
  if ms = MirrorFresh then "Fresh"
  else if ms = MirrorReady then "Ready"
  else "Unknown"

/-- `ParseMirrorState` from the source. -/
def ParseMirrorState (str : String) : Except String Nat :=
  if str = "Fresh" then .ok MirrorFresh
  else if str = "Ready" then .ok MirrorReady
  else .error ("invalid MirrorState: " ++ str)

/-- `MirrorState.MarshalText` from the source: renders via `String()`
(never fails). -/
def marshalText (ms : Nat) : String := mirrorStateString ms

/-- `MirrorState.UnmarshalText` from the source, with the receiver passed
explicitly: on parse success the receiver is overwritten, on failure the
error is returned and the receiver is left unchanged.  The result pairs the
outcome with the receiver's final value. -/
def unmarshalText (receiver : Nat) (bs : String) : Except String Unit × Nat :=
  match ParseMirrorState bs with
  | .ok val => (.ok (), val)
  | .error e => (.error e, receiver)

/-! ## Mirror and State (`main.go` lines 59-73) -/

structure Mirror where
  url : String
  lastUpdate : Nat
  state : Nat
deriving DecidableEq, Repr

/-- The zero value of the Go struct `Mirror`, produced by a map read of an
absent key. -/
def zeroMirror : Mirror := { url := "", lastUpdate := 0, state := 0 }

structure State where
  storagePath : String
  updateDelta : Nat
  mirrors : List (String × Mirror)
deriving DecidableEq, Repr

/-- `NewState` from the source: default update interval 5 minutes
(300 000 000 000 ns) and a fresh empty (non-nil) map. -/
def NewState : State :=
  { storagePath := "", updateDelta := 300000000000, mirrors := [] }

/-! ## Go map primitives on the association-list model -/

def mapLookup (m : List (String × Mirror)) (k : String) : Option Mirror :=
  match m with
  | [] => none
  | (k', v) :: rest => if k' = k then some v else mapLookup rest k

/-- A Go map read `m[k]`: the stored value, or the zero value if absent. -/
def mapGet (m : List (String × Mirror)) (k : String) : Mirror :=
  (mapLookup m k).getD zeroMirror

/-- A Go map write `m[k] = v`: overwrite in place, or append if absent. -/
def mapInsert (m : List (String × Mirror)) (k : String) (v : Mirror) :
    List (String × Mirror) :=
  match m with
  | [] => [(k, v)]
  | (k', v') :: rest =>
    if k' = k then (k, v) :: rest else (k', v') :: mapInsert rest k v

def mapKeys (m : List (String × Mirror)) : List String := m.map Prod.fst

theorem mapLookup_eq_none_of_not_mem (m : List (String × Mirror)) (k : String)
    (h : k ∉ mapKeys m) : mapLookup m k = none := by
  induction m with
  | nil => rfl
  | cons p rest ih =>
    have h1 : ¬ p.1 = k := fun e => h (by simp [mapKeys, e])
    have h2 : k ∉ mapKeys rest := fun e =>
      h (by simp only [mapKeys, List.map_cons]; exact List.mem_cons_of_mem _ e)
    simp [mapLookup, h1, ih h2]

theorem mapInsert_of_not_mem (m : List (String × Mirror)) (k : String)
    (v : Mirror) (h : k ∉ mapKeys m) : mapInsert m k v = m ++ [(k, v)] := by
  induction m with
  | nil => rfl
  | cons p rest ih =>
    have h1 : ¬ p.1 = k := fun e => h (by simp [mapKeys, e])
    have h2 : k ∉ mapKeys rest := fun e =>
      h (by simp only [mapKeys, List.map_cons]; exact List.mem_cons_of_mem _ e)
    simp [mapInsert, h1, ih h2]

/-! ## JSON model (`encoding/json` as used by `updateDb` / `NewMirrorer`)

`time.Time` marshals to an RFC3339 string that denotes the instant exactly
(nanosecond precision); the model keeps the denoted instant as the number
`n` of nanoseconds.  `time.Duration` marshals as a JSON integer.
`MirrorState` marshals through `MarshalText` / `UnmarshalText` as a JSON
string. -/

inductive Json where
  | null
  | num (n : Nat)
  | str (s : String)
  | obj (fields : List (String × Json))
deriving Repr

/-- JSON encoding of a `Mirror`, following the struct tags of `main.go`:
`url`, `last_update`, `state`. -/
def encodeMirror (m : Mirror) : Json :=
  .obj [("url", .str m.url),
        ("last_update", .num m.lastUpdate),
        ("state", .str (marshalText m.state))]

/-- JSON encoding of a `State`, following the struct tags of `main.go`:
`storage_path`, `update_delta`, `mirrors`.  This is what `updateDb` writes. -/
def encodeState (st : State) : Json :=
  .obj [("storage_path", .str st.storagePath),
        ("update_delta", .num st.updateDelta),
        ("mirrors", .obj (st.mirrors.map (fun kv => (kv.1, encodeMirror kv.2))))]

/-- The character folding of `strings.EqualFold` (`unicode.SimpleFold`),
restricted to what can ever match the decoder's ASCII field names: an ASCII
upper-case letter folds to its lower-case pair, and the only two non-ASCII
characters whose simple-fold orbit contains an ASCII letter fold to that
letter (U+017F LATIN SMALL LETTER LONG S to `s`, U+212A KELVIN SIGN to
`k`). -/
def foldChar (c : Char) : Char :=
  if 'A' ≤ c ∧ c ≤ 'Z' then Char.ofNat (c.toNat + 32)
  else if c.toNat = 0x017F then 's'
  else if c.toNat = 0x212A then 'k'
  else c

/-- `strings.EqualFold`, as `encoding/json` uses it to match an object key
against an ASCII struct field name. -/
def eqFold (a b : String) : Bool :=
  a.data.map foldChar == b.data.map foldChar

/-- Decoding one JSON object field into a `Mirror`, as `json.Decode` does:
keys are matched to the field names case-insensitively (exact matches are
preferred by Go, which coincides with this chain because the three names'
fold classes are disjoint); matching keys overwrite the corresponding field
(the `state` string going through `UnmarshalText`), other keys are ignored,
type mismatches fail. -/
def decodeMirrorField (m : Mirror) (kv : String × Json) : Except String Mirror :=
  if eqFold kv.1 "url" then
    match kv.2 with
    | .str s => .ok { m with url := s }
    | _ => .error "cannot unmarshal into field url"
  else if eqFold kv.1 "last_update" then
    match kv.2 with
    | .num n => .ok { m with lastUpdate := n }
    | _ => .error "cannot unmarshal into field last_update"
  else if eqFold kv.1 "state" then
    match kv.2 with
    | .str s =>
      match ParseMirrorState s with
      | .ok ms => .ok { m with state := ms }
      | .error e => .error e
    | _ => .error "cannot unmarshal into field state"
  else .ok m

def decodeMirrorFields : List (String × Json) → Mirror → Except String Mirror
  | [], m => .ok m
  | kv :: rest, m =>
    match decodeMirrorField m kv with
    | .ok m' => decodeMirrorFields rest m'
    | .error e => .error e

/-- Decoding a JSON value into a `Mirror`, starting from the zero value as
`json.Decode` does for a fresh map entry. -/
def decodeMirror (j : Json) : Except String Mirror :=
  match j with
  | .obj fields => decodeMirrorFields fields zeroMirror
  | _ => .error "cannot unmarshal into Mirror"

/-- Decoding the `mirrors` JSON object into the existing (non-nil) map, one
entry at a time, as `json.Decode` does for a `map[string]Mirror`. -/
def decodeMirrors : List (String × Json) → List (String × Mirror) →
    Except String (List (String × Mirror))
  | [], acc => .ok acc
  | (k, v) :: rest, acc =>
    match decodeMirror v with
    | .ok m => decodeMirrors rest (mapInsert acc k m)
    | .error e => .error e

/-- Decoding one JSON object field into a `State`; keys are matched to the
field names case-insensitively, like `decodeMirrorField`. -/
def decodeStateField (st : State) (kv : String × Json) : Except String State :=
  if eqFold kv.1 "storage_path" then
    match kv.2 with
    | .str s => .ok { st with storagePath := s }
    | _ => .error "cannot unmarshal into field storage_path"
  else if eqFold kv.1 "update_delta" then
    match kv.2 with
    | .num n => .ok { st with updateDelta := n }
    | _ => .error "cannot unmarshal into field update_delta"
  else if eqFold kv.1 "mirrors" then
    match kv.2 with
    | .obj fields =>
      match decodeMirrors fields st.mirrors with
      | .ok ms => .ok { st with mirrors := ms }
      | .error e => .error e
    | _ => .error "cannot unmarshal into field mirrors"
  else .ok st

def decodeStateFields : List (String × Json) → State → Except String State
  | [], st => .ok st
  | kv :: rest, st =>
    match decodeStateField st kv with
    | .ok st' => decodeStateFields rest st'
    | .error e => .error e

/-- The decode performed in `NewMirrorer`: `state := NewState()` then
`decoder.Decode(&state)`, overwriting only the fields present in the file. -/
def decodeState (j : Json) (st : State) : Except String State :=
  match j with
  | .obj fields => decodeStateFields fields st
  | _ => .error "cannot unmarshal into State"

/-- A mirror's state field holds one of the two valid states. -/
def validMirror (m : Mirror) : Prop :=
  m.state = MirrorFresh ∨ m.state = MirrorReady

instance (m : Mirror) : Decidable (validMirror m) := by
  unfold validMirror; infer_instance

theorem parseMirrorState_marshalText (s : Nat)
    (h : s = MirrorFresh ∨ s = MirrorReady) :
    ParseMirrorState (marshalText s) = .ok s := by
  rcases h with h | h <;> subst h <;> rfl

theorem eqFold_url_url : eqFold "url" "url" = true := rfl

theorem eqFold_lu_url : eqFold "last_update" "url" = false := rfl

theorem eqFold_lu_lu : eqFold "last_update" "last_update" = true := rfl

theorem eqFold_state_url : eqFold "state" "url" = false := rfl

theorem eqFold_state_lu : eqFold "state" "last_update" = false := rfl

theorem eqFold_state_state : eqFold "state" "state" = true := rfl

theorem eqFold_sp_sp : eqFold "storage_path" "storage_path" = true := rfl

theorem eqFold_ud_sp : eqFold "update_delta" "storage_path" = false := rfl

theorem eqFold_ud_ud : eqFold "update_delta" "update_delta" = true := rfl

theorem eqFold_mi_sp : eqFold "mirrors" "storage_path" = false := rfl

theorem eqFold_mi_ud : eqFold "mirrors" "update_delta" = false := rfl

theorem eqFold_mi_mi : eqFold "mirrors" "mirrors" = true := rfl

theorem decodeMirror_encodeMirror (m : Mirror) (h : validMirror m) :
    decodeMirror (encodeMirror m) = .ok m := by
  simp [decodeMirror, encodeMirror, decodeMirrorFields, decodeMirrorField,
    eqFold_url_url, eqFold_lu_url, eqFold_lu_lu, eqFold_state_url,
    eqFold_state_lu, eqFold_state_state,
    parseMirrorState_marshalText m.state h, zeroMirror]

theorem decodeMirrors_encode (ms acc : List (String × Mirror))
    (hval : ∀ p ∈ ms, validMirror p.2)
    (hnodup : (mapKeys ms).Nodup)
    (hdisj : ∀ p ∈ ms, p.1 ∉ mapKeys acc) :
    decodeMirrors (ms.map (fun kv => (kv.1, encodeMirror kv.2))) acc =
      .ok (acc ++ ms) := by
  induction ms generalizing acc with
  | nil => simp [decodeMirrors]
  | cons p rest ih =>
    have hm := decodeMirror_encodeMirror p.2 (hval p (by simp))
    have hins : mapInsert acc p.1 p.2 = acc ++ [(p.1, p.2)] :=
      mapInsert_of_not_mem _ _ _ (hdisj p (by simp))
    have hnd := hnodup
    simp only [mapKeys, List.map_cons, List.nodup_cons] at hnd
    have hrest := ih (acc ++ [(p.1, p.2)])
      (fun q hq => hval q (by simp [hq]))
      (by simpa [mapKeys] using hnd.2)
      (fun q hq => by
        simp only [mapKeys, List.map_append, List.map_cons, List.map_nil,
          List.mem_append, List.mem_singleton]
        rintro (h | h)
        · exact hdisj q (by simp [hq]) (by simpa [mapKeys] using h)
        · exact hnd.1 (h ▸ List.mem_map_of_mem Prod.fst hq))
    simp only [List.map_cons, decodeMirrors, hm, hins, hrest]
    simp

theorem decodeState_encodeState (st : State)
    (hval : ∀ p ∈ st.mirrors, validMirror p.2)
    (hnodup : (mapKeys st.mirrors).Nodup) :
    decodeState (encodeState st) NewState = .ok st := by
  have h := decodeMirrors_encode st.mirrors [] hval hnodup (by simp [mapKeys])
  simp [decodeState, encodeState, decodeStateFields, decodeStateField,
    eqFold_sp_sp, eqFold_ud_sp, eqFold_ud_ud, eqFold_mi_sp, eqFold_mi_ud,
    eqFold_mi_mi, NewState, h]

/-! ## Durable store: `updateDb` (`main.go` lines 85-109) and the load
performed by `NewMirrorer` (lines 116-126)

The on-disk world visible to `updateDb` is the target file (`dbPath`), the
temporary file it creates, and the directory the temporary file lives in.
The fallible operating-system steps (`os.CreateTemp`, `Encode`, `Close`,
`os.Rename`) are driven by a vector of fault flags standing for the
environment. -/

structure Disk where
  target : Option Json
  tempCreated : Bool
  tempContent : Option Json
  tempDir : Option String
deriving Repr

structure SaveFaults where
  createFails : Bool
  encodeFails : Bool
  closeFails : Bool
  renameFails : Bool
deriving Repr, DecidableEq

/-- `filepath.Dir`, simplified: the path up to the last `/` (`"."` when the
path has no separator), without the Clean normalization. -/
def dirName (p : String) : String :=
  match (p.splitOn "/").dropLast with
  | [] => "."
  | parts => String.intercalate "/" parts

/-- `Mirrorer.updateDb`: create a temp file in `filepath.Dir(dbPath)`, encode
the whole state into it, close it, then rename it over `dbPath`.  Each failing
step returns the corresponding wrapped error and stops; the target file is
only ever touched by the final rename. -/
def updateDb (st : State) (dbPath : String) (disk : Disk) (f : SaveFaults) :
    Except String Unit × Disk :=
  if f.createFails then
    (.error "cannot create temporary state file", disk)
  else
    let disk := { disk with
      tempCreated := true, tempContent := none,
      tempDir := some (dirName dbPath) }
    if f.encodeFails then
      (.error "cannot write temporary state file", disk)
    else
      let disk := { disk with tempContent := some (encodeState st) }
      if f.closeFails then
        (.error "failed to close temp file", disk)
      else if f.renameFails then
        (.error "failed to move temp file to state file", disk)
      else
        (.ok (), { disk with
          target := some (encodeState st),
          tempCreated := false, tempContent := none })

/-- The load performed by `NewMirrorer`: open the db file (an absent file is
an error) and decode its contents into `NewState()`. -/
def loadDb (disk : Disk) : Except String State :=
  match disk.target with
  | none => .error "failed to open db file"
  | some j => decodeState j NewState

theorem mapLookup_isSome_of_mem (m : List (String × Mirror)) (k : String)
    (h : k ∈ mapKeys m) : ∃ v, mapLookup m k = some v := by
  induction m with
  | nil => simp [mapKeys] at h
  | cons p rest ih =>
    by_cases hk : p.1 = k
    · exact ⟨p.2, by simp [mapLookup, hk]⟩
    · have : k ∈ mapKeys rest := by
        simp only [mapKeys, List.map_cons, List.mem_cons] at h
        exact h.resolve_left (fun e => hk e.symm)
      obtain ⟨v, hv⟩ := ih this
      exact ⟨v, by simp [mapLookup, hk, hv]⟩

theorem mapLookup_mem (m : List (String × Mirror)) (k : String) (v : Mirror)
    (h : mapLookup m k = some v) : (k, v) ∈ m := by
  induction m with
  | nil => simp [mapLookup] at h
  | cons p rest ih =>
    by_cases hk : p.1 = k
    · simp only [mapLookup, hk, if_pos] at h
      cases h
      subst hk
      exact List.mem_cons_self _ _
    · simp only [mapLookup, hk, if_neg, ite_false] at h
      exact List.mem_cons_of_mem _ (ih h)

theorem mapLookup_mapInsert_self (m : List (String × Mirror)) (k : String)
    (v : Mirror) : mapLookup (mapInsert m k v) k = some v := by
  induction m with
  | nil => simp [mapInsert, mapLookup]
  | cons p rest ih =>
    by_cases hk : p.1 = k
    · simp [mapInsert, hk, mapLookup]
    · simp [mapInsert, hk, mapLookup, ih]

/-! ## HTTP control surface: `AddMirrorHandler` (`main.go` lines 136-178)

`url.Values` is modelled as a list of key/value pairs; `http.Error` writes
a 500 status with a plaintext body; a handler that returns without writing
produces a 200 with an empty body.  `sentMessages` records every value the
handler sends on the `m.messages` channel (the source handler sends none:
it mutates `m.state.Mirrors` directly on its own goroutine). -/

structure HttpResponse where
  status : Nat
  body : String
deriving Repr, DecidableEq

def queryHas (q : List (String × String)) (k : String) : Bool :=
  q.any (fun kv => kv.1 == k)

def queryGet (q : List (String × String)) (k : String) : String :=
  match q.find? (fun kv => kv.1 == k) with
  | some kv => kv.2
  | none => ""

/-- `checkArgs`: collect the missing argument names; reports a 500 error body
when any are missing. -/
def checkArgs (q : List (String × String)) (args : List String) :
    Option String :=
  let missingArgs := args.filter (fun a => !queryHas q a)
  if missingArgs.length > 0 then
    some ("missing arguments: " ++ String.intercalate ", " missingArgs)
  else
    none

structure HandlerResult where
  state : State
  disk : Disk
  response : HttpResponse
  sentMessages : List String
deriving Repr

/-- `Mirrorer.AddMirrorHandler`: validate the `name`/`url` query arguments,
reject an already-registered name with a 500, otherwise write the new
`Fresh` mirror into `m.state.Mirrors` (directly, on the handler's own
goroutine — nothing is sent on `m.messages`) and attempt `updateDb`. -/
def AddMirrorHandler (st : State) (dbPath : String) (disk : Disk)
    (f : SaveFaults) (q : List (String × String)) (now : Nat) : HandlerResult :=
  match checkArgs q ["name", "url"] with
  | some errBody => ⟨st, disk, ⟨500, errBody⟩, []⟩
  | none =>
    let mirrorName := queryGet q "name"
    let mirrorUrl := queryGet q "url"
    match mapLookup st.mirrors mirrorName with
    | some _ =>
      ⟨st, disk,
        ⟨500, "cannot add mirror '" ++ mirrorName ++ "': already exists"⟩, []⟩
    | none =>
      let st' := { st with
        mirrors := mapInsert st.mirrors mirrorName
          { url := mirrorUrl, lastUpdate := now, state := MirrorFresh } }
      match updateDb st' dbPath disk f with
      | (.ok _, disk') => ⟨st', disk', ⟨200, ""⟩, []⟩
      | (.error e, disk') => ⟨st', disk', ⟨500, "failed to update db: " ++ e⟩, []⟩

/-! ## Scheduler: the three phases of `Mirrorer.Run` (`main.go` lines 193-240)

External effects are threaded explicitly: `cloneOk` / `updateOk` are the
outcomes of the blocking `gitCloneMirror` / `gitRemoteUpdate` calls, `now`
is `time.Now()` at the moment the state is written back. -/

structure CatchUpResult where
  state : State
  disk : Disk
  cloneInvoked : Bool
  dbWriteAttempted : Bool
deriving Repr

/-- One iteration of the catch-up loop (lines 194-206) for mirror `name`:
if the mirror is `Fresh`, `gitCloneMirror` is invoked and a failure is only
logged (`log.Println(err)`); the mirror is then set to `Ready` with
`lastUpdate := now`, written back, and the db updated — regardless of
`cloneOk`, exactly as the source does. -/
def catchUpStep (st : State) (name : String) (cloneOk : Bool) (now : Nat)
    (dbPath : String) (disk : Disk) (f : SaveFaults) : CatchUpResult :=
  let mirror := mapGet st.mirrors name
  if mirror.state = MirrorFresh then
    let _ := cloneOk
    let mirror := { mirror with state := MirrorReady, lastUpdate := now }
    let st := { st with mirrors := mapInsert st.mirrors name mirror }
    let (_, disk) := updateDb st dbPath disk f
    ⟨st, disk, true, true⟩
  else
    ⟨st, disk, false, false⟩

structure Timer where
  name : String
  deadline : Nat
deriving Repr, DecidableEq

/-- The arm phase (lines 208-217): one timer per `Ready` mirror, with
deadline `lastUpdate + updateDelta`. -/
def armPhase (st : State) : List Timer :=
  (st.mirrors.filter (fun kv => kv.2.state == MirrorReady)).map
    (fun kv => ⟨kv.1, kv.2.lastUpdate + st.updateDelta⟩)

/-- The firing time of a timer goroutine `time.Sleep(time.Until(deadline))`
started at `armedAt`: a nonnegative remaining duration sleeps until the
deadline, a negative one returns immediately, so a deadline already in the
past is due at once. -/
def timerFireTime (armedAt deadline : Nat) : Nat := max armedAt deadline

structure LoopResult where
  state : State
  disk : Disk
  armedTimers : List Timer
  gitInvoked : Bool
  dbWriteAttempted : Bool
deriving Repr

/-- One iteration of the event loop (lines 219-239): receive `name`, read the
mirror (the zero value when absent); only when it is `Ready`, invoke
`gitRemoteUpdate`; on failure only log; on success set `lastUpdate := now`,
write the mirror back, call `updateDb` (its error ignored) and arm exactly
one new timer for `lastUpdate + updateDelta`. -/
def loopStep (st : State) (name : String) (updateOk : Bool) (now : Nat)
    (dbPath : String) (disk : Disk) (f : SaveFaults) : LoopResult :=
  let mirror := mapGet st.mirrors name
  if mirror.state = MirrorReady then
    if updateOk then
      let mirror := { mirror with lastUpdate := now }
      let st := { st with mirrors := mapInsert st.mirrors name mirror }
      let (_, disk) := updateDb st dbPath disk f
      ⟨st, disk, [⟨name, mirror.lastUpdate + st.updateDelta⟩], true, true⟩
    else
      ⟨st, disk, [], true, false⟩
  else
    ⟨st, disk, [], false, false⟩

/-! ## Shared sample inputs for witnesses -/

def sampleDisk : Disk :=
  { target := none, tempCreated := false, tempContent := none, tempDir := none }

def noFaults : SaveFaults :=
  { createFails := false, encodeFails := false,
    closeFails := false, renameFails := false }

def sampleMirrors : List (String × Mirror) :=
  [("repo1", { url := "https://example.com/repo1.git", lastUpdate := 10,
               state := MirrorFresh }),
   ("repo2", { url := "https://example.com/repo2.git", lastUpdate := 20,
               state := MirrorReady })]

def sampleState : State :=
  { storagePath := "/srv/mirrors", updateDelta := 300000000000,
    mirrors := sampleMirrors }

/-! ## Claim theorems -/

/-- **C10**: for a valid mirror state (`Fresh` or `Ready`),
`UnmarshalText (MarshalText s)` succeeds and returns `s` whatever the
receiver held; for any other string, `ParseMirrorState` and `UnmarshalText`
return an error and `UnmarshalText` leaves the receiver unchanged. -/
theorem mirrorState_text_roundtrip (s receiver : Nat) (str : String) :
    ((s = MirrorFresh ∨ s = MirrorReady) →
      unmarshalText receiver (marshalText s) = (.ok (), s)) ∧
    ((str ≠ "Fresh" ∧ str ≠ "Ready") →
      (∃ e, ParseMirrorState str = .error e) ∧
      ∃ e, unmarshalText receiver str = (.error e, receiver)) := by
  constructor
  · rintro (h | h) <;> subst h <;> rfl
  · rintro ⟨h1, h2⟩
    refine ⟨⟨"invalid MirrorState: " ++ str, ?_⟩,
      "invalid MirrorState: " ++ str, ?_⟩ <;>
      simp [ParseMirrorState, unmarshalText, h1, h2]

/-- Witness for C10 at `s = MirrorReady`, receiver `7`, `str = "Bogus"`. -/
theorem mirrorState_text_roundtrip_witness :
    (MirrorReady = MirrorFresh ∨ MirrorReady = MirrorReady) ∧
    ("Bogus" ≠ "Fresh" ∧ "Bogus" ≠ "Ready") ∧
    unmarshalText 7 (marshalText MirrorReady) = (.ok (), MirrorReady) ∧
    ((∃ e, ParseMirrorState "Bogus" = .error e) ∧
      ∃ e, unmarshalText 7 "Bogus" = (.error e, 7)) :=
  ⟨Or.inr rfl, by decide,
   (mirrorState_text_roundtrip MirrorReady 7 "Bogus").1 (Or.inr rfl),
   (mirrorState_text_roundtrip MirrorReady 7 "Bogus").2 (by decide)⟩

theorem decodeStateField_preserves (st : State) (kv : String × Json)
    (st₁ : State) (h1 : eqFold kv.1 "update_delta" = false)
    (h2 : eqFold kv.1 "mirrors" = false)
    (h : decodeStateField st kv = .ok st₁) :
    st₁.updateDelta = st.updateDelta ∧ st₁.mirrors = st.mirrors := by
  unfold decodeStateField at h
  by_cases hsp : eqFold kv.1 "storage_path" = true
  · rw [if_pos hsp] at h
    cases hv : kv.2 with
    | null => rw [hv] at h; cases h
    | num n => rw [hv] at h; cases h
    | str s => rw [hv] at h; cases h; exact ⟨rfl, rfl⟩
    | obj fs => rw [hv] at h; cases h
  · rw [if_neg hsp, if_neg (by simp [h1]), if_neg (by simp [h2])] at h
    cases h
    exact ⟨rfl, rfl⟩

theorem decodeStateFields_preserves (fields : List (String × Json))
    (st st' : State)
    (h1 : ∀ kv ∈ fields, eqFold kv.1 "update_delta" = false)
    (h2 : ∀ kv ∈ fields, eqFold kv.1 "mirrors" = false)
    (h : decodeStateFields fields st = .ok st') :
    st'.updateDelta = st.updateDelta ∧ st'.mirrors = st.mirrors := by
  induction fields generalizing st with
  | nil =>
    simp only [decodeStateFields] at h
    cases h
    exact ⟨rfl, rfl⟩
  | cons kv rest ih =>
    simp only [decodeStateFields] at h
    cases hstep : decodeStateField st kv with
    | error e => rw [hstep] at h; exact absurd h (by simp)
    | ok st₁ =>
      rw [hstep] at h
      have hp := decodeStateField_preserves st kv st₁
        (h1 kv (List.mem_cons_self kv rest))
        (h2 kv (List.mem_cons_self kv rest)) hstep
      have hr := ih st₁ (fun q hq => h1 q (List.mem_cons_of_mem kv hq))
        (fun q hq => h2 q (List.mem_cons_of_mem kv hq)) h
      exact ⟨hp.1 ▸ hr.1, hp.2 ▸ hr.2⟩

/-- **C9**: decoding a valid snapshot file that omits the `update_delta`
field and the `mirrors` field — no key of the file matches either name under
`encoding/json`'s case-insensitive field matching — yields the `NewState`
defaults for those fields: a 5-minute update interval and an empty (non-nil)
mirror map, because `NewMirrorer` decodes into `NewState()` and only fields
present in the file are overwritten. -/
theorem decode_missing_fields_defaults (fields : List (String × Json))
    (st' : State)
    (h1 : ∀ kv ∈ fields, eqFold kv.1 "update_delta" = false)
    (h2 : ∀ kv ∈ fields, eqFold kv.1 "mirrors" = false)
    (hdec : decodeState (.obj fields) NewState = .ok st') :
    st'.updateDelta = 300000000000 ∧ st'.mirrors = [] := by
  have := decodeStateFields_preserves fields NewState st' h1 h2 hdec
  simpa [NewState] using this

/-- Witness for C9: a file holding only `storage_path`. -/
theorem decode_missing_fields_defaults_witness :
    (∀ kv ∈ [(("storage_path" : String), Json.str "/x")],
       eqFold kv.1 "update_delta" = false) ∧
    (∀ kv ∈ [(("storage_path" : String), Json.str "/x")],
       eqFold kv.1 "mirrors" = false) ∧
    decodeState (.obj [("storage_path", .str "/x")]) NewState =
      .ok { storagePath := "/x", updateDelta := 300000000000, mirrors := [] } ∧
    ({ storagePath := "/x", updateDelta := 300000000000,
       mirrors := [] } : State).updateDelta = 300000000000 ∧
    ({ storagePath := "/x", updateDelta := 300000000000,
       mirrors := [] } : State).mirrors = [] :=
  ⟨by decide, by decide, rfl,
   decode_missing_fields_defaults [("storage_path", .str "/x")]
     { storagePath := "/x", updateDelta := 300000000000, mirrors := [] }
     (by decide) (by decide) rfl⟩

/-- **C3**: a successful `updateDb` (whatever the target path, the previous
disk contents, and the fault environment) followed by the load performed in
`NewMirrorer` yields exactly the snapshot that was saved, reconstructing
every mirror's state and `lastUpdate`.  The snapshot is an arbitrary map of
`Fresh`/`Ready` mirrors (distinct names, as in a Go map). -/
theorem save_load_roundtrip (st : State) (dbPath : String) (disk : Disk)
    (f : SaveFaults)
    (hval : ∀ p ∈ st.mirrors, validMirror p.2)
    (hnodup : (mapKeys st.mirrors).Nodup)
    (hok : (updateDb st dbPath disk f).1 = .ok ()) :
    loadDb (updateDb st dbPath disk f).2 = .ok st := by
  rcases f with ⟨c, e, cl, r⟩
  cases c <;> cases e <;> cases cl <;> cases r <;>
    simp_all [updateDb, loadDb, decodeState_encodeState st hval hnodup]

/-- Witness for C3 at a two-mirror snapshot (one `Fresh`, one `Ready`). -/
theorem save_load_roundtrip_witness :
    (∀ p ∈ sampleState.mirrors, validMirror p.2) ∧
    (mapKeys sampleState.mirrors).Nodup ∧
    (updateDb sampleState "db.json" sampleDisk noFaults).1 = .ok () ∧
    loadDb (updateDb sampleState "db.json" sampleDisk noFaults).2 =
      .ok sampleState :=
  ⟨by decide, by decide, rfl,
   save_load_roundtrip sampleState "db.json" sampleDisk noFaults
     (by decide) (by decide) rfl⟩

/-- **C4**: `updateDb` stages the snapshot in a fresh temp file created in
`filepath.Dir(dbPath)` and only the final rename touches the target: if
temp-file creation, encoding, or close fails, it returns an error, the
target file is byte-for-byte what it was, and a subsequent load still
returns the previously committed snapshot. -/
theorem failed_save_leaves_target_untouched (st : State) (dbPath : String)
    (disk : Disk) (f : SaveFaults) (prev : State)
    (hfail : f.createFails = true ∨ f.encodeFails = true ∨
      f.closeFails = true)
    (hprev : disk.target = some (encodeState prev))
    (hval : ∀ p ∈ prev.mirrors, validMirror p.2)
    (hnodup : (mapKeys prev.mirrors).Nodup) :
    (∃ e, (updateDb st dbPath disk f).1 = .error e) ∧
    (updateDb st dbPath disk f).2.target = disk.target ∧
    loadDb (updateDb st dbPath disk f).2 = .ok prev ∧
    (f.createFails = false →
      (updateDb st dbPath disk f).2.tempDir = some (dirName dbPath)) := by
  have hload : decodeState (encodeState prev) NewState = .ok prev :=
    decodeState_encodeState prev hval hnodup
  rcases f with ⟨c, e, cl, r⟩
  cases c <;> cases e <;> cases cl <;>
    simp_all [updateDb, loadDb, hprev, hload]

/-- Witness for C4: the encode step fails over a previously committed
snapshot. -/
theorem failed_save_leaves_target_untouched_witness :
    ((false : Bool) = true ∨ (true : Bool) = true ∨ (false : Bool) = true) ∧
    (Disk.mk (some (encodeState sampleState)) false none none).target =
      some (encodeState sampleState) ∧
    (∀ p ∈ sampleState.mirrors, validMirror p.2) ∧
    (mapKeys sampleState.mirrors).Nodup ∧
    ((∃ e, (updateDb NewState "db.json"
        (Disk.mk (some (encodeState sampleState)) false none none)
        (SaveFaults.mk false true false false)).1 = .error e) ∧
      (updateDb NewState "db.json"
        (Disk.mk (some (encodeState sampleState)) false none none)
        (SaveFaults.mk false true false false)).2.target =
        (Disk.mk (some (encodeState sampleState)) false none none).target ∧
      loadDb (updateDb NewState "db.json"
        (Disk.mk (some (encodeState sampleState)) false none none)
        (SaveFaults.mk false true false false)).2 = .ok sampleState ∧
      ((SaveFaults.mk false true false false).createFails = false →
        (updateDb NewState "db.json"
          (Disk.mk (some (encodeState sampleState)) false none none)
          (SaveFaults.mk false true false false)).2.tempDir =
          some (dirName "db.json"))) :=
  ⟨Or.inr (Or.inl rfl), rfl, by decide, by decide,
   failed_save_leaves_target_untouched NewState "db.json"
     (Disk.mk (some (encodeState sampleState)) false none none)
     (SaveFaults.mk false true false false) sampleState
     (Or.inr (Or.inl rfl)) rfl (by decide) (by decide)⟩

/-- **C1** (code bug): the catch-up pass marks a `Fresh` mirror `Ready` and
stamps `lastUpdate` even when `gitCloneMirror` fails — the clone error is
only logged, and the `Fresh → Ready` transition and the db write happen
unconditionally, contradicting the claim that a failed clone leaves the
mirror `Fresh`. -/
theorem catchup_marks_failed_clone_ready :
    (mapGet sampleState.mirrors "repo1").state = MirrorFresh ∧
    (catchUpStep sampleState "repo1" false 100 "db.json" sampleDisk
      noFaults).cloneInvoked = true ∧
    (mapGet (catchUpStep sampleState "repo1" false 100 "db.json" sampleDisk
      noFaults).state.mirrors "repo1").state = MirrorReady ∧
    (mapGet (catchUpStep sampleState "repo1" false 100 "db.json" sampleDisk
      noFaults).state.mirrors "repo1").state ≠ MirrorFresh ∧
    (mapGet (catchUpStep sampleState "repo1" false 100 "db.json" sampleDisk
      noFaults).state.mirrors "repo1").lastUpdate = 100 ∧
    (catchUpStep sampleState "repo1" false 100 "db.json" sampleDisk
      noFaults).dbWriteAttempted = true := by
  decide

/-- **C5**: when the remote update of a `Ready` mirror fails, the event-loop
iteration leaves the whole registry and the disk untouched, attempts no
persistence write, and arms no new timer — the mirror drops out of the
refresh cycle (only the failed git invocation itself happened). -/
theorem failed_refresh_is_noop (st : State) (name : String) (now : Nat)
    (dbPath : String) (disk : Disk) (f : SaveFaults)
    (hready : (mapGet st.mirrors name).state = MirrorReady) :
    loopStep st name false now dbPath disk f =
      ⟨st, disk, [], true, false⟩ := by
  simp [loopStep, hready]

/-- Witness for C5 at the `Ready` mirror `repo2`. -/
theorem failed_refresh_is_noop_witness :
    (mapGet sampleState.mirrors "repo2").state = MirrorReady ∧
    loopStep sampleState "repo2" false 999 "db.json" sampleDisk noFaults =
      ⟨sampleState, sampleDisk, [], true, false⟩ :=
  ⟨by decide,
   failed_refresh_is_noop sampleState "repo2" 999 "db.json" sampleDisk
     noFaults (by decide)⟩

/-- **C8**: an event-loop message naming an absent mirror, or a mirror that
is not `Ready`, is a no-op: the absent-key map read yields the zero-value
`Mirror`, whose state is not `Ready`, so no git operation runs, no entry is
created or changed, and no persistence write occurs. -/
theorem unknown_or_not_ready_message_is_noop (st : State) (name : String)
    (updateOk : Bool) (now : Nat) (dbPath : String) (disk : Disk)
    (f : SaveFaults)
    (h : mapLookup st.mirrors name = none ∨
      (mapGet st.mirrors name).state ≠ MirrorReady) :
    loopStep st name updateOk now dbPath disk f =
      ⟨st, disk, [], false, false⟩ ∧
    (mapLookup st.mirrors name = none →
      mapGet st.mirrors name = zeroMirror ∧
      zeroMirror.state ≠ MirrorReady) := by
  have hnr : ¬ (mapGet st.mirrors name).state = MirrorReady := by
    rcases h with h | h
    · rw [mapGet, h]
      decide
    · exact h
  exact ⟨by simp [loopStep, hnr],
    fun hn => ⟨by rw [mapGet, hn]; rfl, by decide⟩⟩

/-- Witness for C8 at a name absent from the sample registry. -/
theorem unknown_or_not_ready_message_is_noop_witness :
    (mapLookup sampleState.mirrors "absent" = none ∨
      (mapGet sampleState.mirrors "absent").state ≠ MirrorReady) ∧
    (loopStep sampleState "absent" true 999 "db.json" sampleDisk noFaults =
      ⟨sampleState, sampleDisk, [], false, false⟩ ∧
    (mapLookup sampleState.mirrors "absent" = none →
      mapGet sampleState.mirrors "absent" = zeroMirror ∧
      zeroMirror.state ≠ MirrorReady)) :=
  ⟨Or.inl (by decide),
   unknown_or_not_ready_message_is_noop sampleState "absent" true 999
     "db.json" sampleDisk noFaults (Or.inl (by decide))⟩

/-- **C6**: the arm phase arms a timer for every `Ready` mirror at deadline
`lastUpdate + updateDelta`; a timer never fires before its deadline (a
deadline already past fires immediately at arm time); and a successful
refresh at time `now` (necessarily `≥` the deadline) sets `lastUpdate = now`
— a strict advance when the interval is positive — and arms exactly one new
timer for the new `lastUpdate + updateDelta`. -/
theorem ready_refresh_timing (st : State) (name : String) (v : Mirror)
    (armedAt now : Nat) (dbPath : String) (disk : Disk) (f : SaveFaults)
    (hlk : mapLookup st.mirrors name = some v)
    (hready : v.state = MirrorReady)
    (hdelta : 0 < st.updateDelta)
    (hnow : v.lastUpdate + st.updateDelta ≤ now) :
    (Timer.mk name (v.lastUpdate + st.updateDelta) ∈ armPhase st) ∧
    (armedAt ≤ v.lastUpdate + st.updateDelta →
      timerFireTime armedAt (v.lastUpdate + st.updateDelta) =
        v.lastUpdate + st.updateDelta) ∧
    (v.lastUpdate + st.updateDelta < armedAt →
      timerFireTime armedAt (v.lastUpdate + st.updateDelta) = armedAt) ∧
    (mapGet (loopStep st name true now dbPath disk f).state.mirrors
        name).lastUpdate = now ∧
    v.lastUpdate <
      (mapGet (loopStep st name true now dbPath disk f).state.mirrors
        name).lastUpdate ∧
    (loopStep st name true now dbPath disk f).armedTimers =
      [⟨name, now + st.updateDelta⟩] := by
  have hget : mapGet st.mirrors name = v := by rw [mapGet, hlk]; rfl
  have hmem : Timer.mk name (v.lastUpdate + st.updateDelta) ∈ armPhase st := by
    refine List.mem_map.mpr ⟨(name, v), List.mem_filter.mpr
      ⟨mapLookup_mem st.mirrors name v hlk, ?_⟩, rfl⟩
    simp [hready]
  have hstep :
      (loopStep st name true now dbPath disk f).state.mirrors =
        mapInsert st.mirrors name { v with lastUpdate := now } ∧
      (loopStep st name true now dbPath disk f).armedTimers =
        [⟨name, now + st.updateDelta⟩] := by
    rw [loopStep]
    simp [hget, hready]
  refine ⟨hmem, fun h => by simp [timerFireTime, Nat.max_eq_right h],
    fun h => by simp [timerFireTime, Nat.max_eq_left (Nat.le_of_lt h)],
    ?_, ?_, hstep.2⟩
  · rw [hstep.1, mapGet, mapLookup_mapInsert_self]
    rfl
  · rw [hstep.1, mapGet, mapLookup_mapInsert_self]
    show v.lastUpdate < now
    omega

/-- Witness for C6 at the `Ready` mirror `repo2`, armed at time 0, firing at
its deadline. -/
theorem ready_refresh_timing_witness :
    mapLookup sampleState.mirrors "repo2" =
      some { url := "https://example.com/repo2.git", lastUpdate := 20,
             state := MirrorReady } ∧
    ({ url := "https://example.com/repo2.git", lastUpdate := 20,
       state := MirrorReady } : Mirror).state = MirrorReady ∧
    0 < sampleState.updateDelta ∧
    (20 : Nat) + sampleState.updateDelta ≤ 300000000020 ∧
    ((Timer.mk "repo2" (20 + sampleState.updateDelta) ∈
        armPhase sampleState) ∧
     ((0 : Nat) ≤ 20 + sampleState.updateDelta →
       timerFireTime 0 (20 + sampleState.updateDelta) =
         20 + sampleState.updateDelta) ∧
     (20 + sampleState.updateDelta < (0 : Nat) →
       timerFireTime 0 (20 + sampleState.updateDelta) = 0) ∧
     (mapGet (loopStep sampleState "repo2" true 300000000020 "db.json"
        sampleDisk noFaults).state.mirrors "repo2").lastUpdate =
        300000000020 ∧
     (20 : Nat) <
       (mapGet (loopStep sampleState "repo2" true 300000000020 "db.json"
         sampleDisk noFaults).state.mirrors "repo2").lastUpdate ∧
     (loopStep sampleState "repo2" true 300000000020 "db.json" sampleDisk
       noFaults).armedTimers =
       [⟨"repo2", 300000000020 + sampleState.updateDelta⟩]) :=
  ⟨by decide, rfl, by decide, by decide,
   ready_refresh_timing sampleState "repo2"
     { url := "https://example.com/repo2.git", lastUpdate := 20,
       state := MirrorReady }
     0 300000000020 "db.json" sampleDisk noFaults
     (by decide) rfl (by decide) (by decide)⟩

/-- **C2**: `AddMirror` with a name already registered answers 500 with the
descriptive already-exists body and leaves the in-memory registry, the disk,
and everything else untouched (no `updateDb` is even attempted); with a name
not yet registered it inserts a new mirror in state `Fresh` carrying the
given url. -/
theorem addMirror_already_exists_or_inserts_fresh (st : State)
    (dbPath : String) (disk : Disk) (f : SaveFaults) (name url : String)
    (now : Nat) :
    (name ∈ mapKeys st.mirrors →
      AddMirrorHandler st dbPath disk f [("name", name), ("url", url)] now =
        ⟨st, disk,
         ⟨500, "cannot add mirror '" ++ name ++ "': already exists"⟩, []⟩) ∧
    (name ∉ mapKeys st.mirrors →
      (AddMirrorHandler st dbPath disk f [("name", name), ("url", url)]
        now).state.mirrors =
        st.mirrors ++
          [(name, { url := url, lastUpdate := now, state := MirrorFresh })]) := by
  have hca : checkArgs [("name", name), ("url", url)] ["name", "url"] =
      none := rfl
  have hqn : queryGet [("name", name), ("url", url)] "name" = name := rfl
  have hqu : queryGet [("name", name), ("url", url)] "url" = url := rfl
  constructor
  · intro h
    obtain ⟨v, hv⟩ := mapLookup_isSome_of_mem st.mirrors name h
    simp [AddMirrorHandler, hca, hqn, hqu, hv]
  · intro h
    have hn := mapLookup_eq_none_of_not_mem st.mirrors name h
    have hi := mapInsert_of_not_mem st.mirrors name
      { url := url, lastUpdate := now, state := MirrorFresh } h
    simp only [AddMirrorHandler, hca, hqn, hqu, hn]
    split <;> simpa using hi

/-- Witness for C2: `repo1` is already registered in the sample registry and
is rejected unchanged; `repo3` is absent and gets inserted `Fresh`. -/
theorem addMirror_already_exists_or_inserts_fresh_witness :
    ("repo1" ∈ mapKeys sampleState.mirrors ∧
      AddMirrorHandler sampleState "db.json" sampleDisk noFaults
        [("name", "repo1"), ("url", "u")] 5 =
        ⟨sampleState, sampleDisk,
         ⟨500, "cannot add mirror '" ++ "repo1" ++ "': already exists"⟩,
         []⟩) ∧
    ("repo3" ∉ mapKeys sampleState.mirrors ∧
      (AddMirrorHandler sampleState "db.json" sampleDisk noFaults
        [("name", "repo3"), ("url", "u3")] 5).state.mirrors =
        sampleState.mirrors ++
          [("repo3", { url := "u3", lastUpdate := 5,
                       state := MirrorFresh })]) :=
  ⟨⟨by decide,
    (addMirror_already_exists_or_inserts_fresh sampleState "db.json"
      sampleDisk noFaults "repo1" "u" 5).1 (by decide)⟩,
   ⟨by decide,
    (addMirror_already_exists_or_inserts_fresh sampleState "db.json"
      sampleDisk noFaults "repo3" "u3" 5).2 (by decide)⟩⟩

/-- **C7** (code bug): the HTTP add-mirror path mutates the registry map
directly on the handler's own goroutine — `AddMirrorHandler` changes
`m.state.Mirrors` itself and sends nothing on the `m.messages` channel, so
this mutation is *not* delivered to the owner task through the serialized
inbound channel. -/
theorem addMirror_mutates_registry_off_channel :
    (AddMirrorHandler sampleState "db.json" sampleDisk noFaults
      [("name", "repo4"), ("url", "u4")] 7).state ≠ sampleState ∧
    (AddMirrorHandler sampleState "db.json" sampleDisk noFaults
      [("name", "repo4"), ("url", "u4")] 7).state.mirrors =
      sampleState.mirrors ++
        [("repo4", { url := "u4", lastUpdate := 7, state := MirrorFresh })] ∧
    (AddMirrorHandler sampleState "db.json" sampleDisk noFaults
      [("name", "repo4"), ("url", "u4")] 7).sentMessages = [] := by
  decide
